import Mathlib

/-!
Verification of the mesh/instance generation core of rusty-flame.

The source files `src/mesh.rs` and `src/rendy_render/mesh_pipeline.rs` are
embedded shallowly.  Floating-point numbers (`f32`/`f64`) are modelled by
exact rationals (`ℚ`); the `as f32` narrowing casts are modelled as the
identity, so all numeric claims are settled in exact arithmetic.

The crate's `flame` module (recursive geometry source), `geometry` module
(`Rect`, `corners`, `letter_box`) and the `split_levels` configuration are
not part of the provided sources; they are modelled from the specification,
each such definition carrying a `Modelled from the spec:` doc comment.
-/

/-- A 2D point, as in `nalgebra::Point2<f64>`. -/
abbrev Point : Type := ℚ × ℚ

/-- A 2D affine transform (`nalgebra` affine `Transform2`/matrix used for
`state.mat` and `letter_box`): linear part `m11 m12 / m21 m22` plus
translation `(tx, ty)`.  It acts on a point by `p ↦ M·p + t`. -/
structure Affine where
  m11 : ℚ
  m12 : ℚ
  tx : ℚ
  m21 : ℚ
  m22 : ℚ
  ty : ℚ
deriving DecidableEq, Repr

/-- Identity transform. -/
def Affine.ident : Affine := ⟨1, 0, 0, 0, 1, 0⟩

/-- Composition `a ∘ b` (apply `b` first), matching `a * b` on
`nalgebra` transforms. -/
def Affine.comp (a b : Affine) : Affine :=
  ⟨a.m11 * b.m11 + a.m12 * b.m21,
   a.m11 * b.m12 + a.m12 * b.m22,
   a.m11 * b.tx + a.m12 * b.ty + a.tx,
   a.m21 * b.m11 + a.m22 * b.m21,
   a.m21 * b.m12 + a.m22 * b.m22,
   a.m21 * b.tx + a.m22 * b.ty + a.ty⟩

/-- Application of a transform to a point, matching `mat * point` in
`nalgebra` (rotation/scale then translation). -/
def Affine.apply (a : Affine) (p : Point) : Point :=
  (a.m11 * p.1 + a.m12 * p.2 + a.tx, a.m21 * p.1 + a.m22 * p.2 + a.ty)

/-- `to_homogeneous().as_slice()`: the 3×3 homogeneous matrix of the
transform, in column-major order, as the 9-entry slice `s[0..9]` that the
Rust code indexes. -/
def Affine.hslice (a : Affine) : List ℚ :=
  [a.m11, a.m21, 0, a.m12, a.m22, 0, a.tx, a.ty, 1]

/-- Axis-aligned rectangle, as `geometry::Rect { min, max }`. -/
structure Rect where
  minx : ℚ
  miny : ℚ
  maxx : ℚ
  maxy : ℚ
deriving DecidableEq, Repr

/-- Modelled from the spec: `geometry.rs` is not under `src/`.  `corners()`
returns the four corners in a fixed consistent winding order
(bottom-left, bottom-right, top-right, top-left). -/
def Rect.corners (r : Rect) : List Point :=
  [(r.minx, r.miny), (r.maxx, r.miny), (r.maxx, r.maxy), (r.minx, r.maxy)]

/-- Modelled from the spec: `geometry::letter_box` is not under `src/`.
Given a destination rectangle and a source rectangle it returns the
transform mapping the source into the largest centered sub-rectangle of
the destination with matching aspect ratio: a uniform scale by the smaller
of the two axis ratios, sending the source center to the destination
center, never flipping axes. -/
def letter_box (dest src : Rect) : Affine :=
  let s := min ((dest.maxx - dest.minx) / (src.maxx - src.minx))
               ((dest.maxy - dest.miny) / (src.maxy - src.miny))
  let cxs := (src.minx + src.maxx) / 2
  let cys := (src.miny + src.maxy) / 2
  let cxd := (dest.minx + dest.maxx) / 2
  let cyd := (dest.miny + dest.maxy) / 2
  ⟨s, 0, cxd - s * cxs, 0, s, cyd - s * cys⟩

/-- Modelled from the spec: the external Recursive Geometry Source's root
state (`flame.rs`/`get_state` are not under `src/`).  A state exposes its
convergent bounding rectangle and its self-similar subdivision: the list
of child transforms (one per child cell, in the fixed deterministic
traversal order). -/
structure FlameState where
  children : List Affine
  bounds : Rect

/-- Modelled from the spec: a source constructs the recursive structure
from an origin and a scale (`Source.root(origin, scale) -> Node`). -/
abbrev Source : Type := Point → Point → FlameState

/-- `get_state(origin, scale).get_state()`: the root state of the
structure anchored at `origin` with extent `scale`. -/
def get_state (src : Source) (origin scale : Point) : FlameState :=
  src origin scale

/-- Modelled from the spec: `state.process_levels(n, f)` visits every node
at exactly depth `n`, in a fixed deterministic order, passing the node's
accumulated (root-to-node) transform; the root's own accumulated transform
is the identity (depth 0 visits exactly the root).  This function returns
the list of visited accumulated transforms in traversal order. -/
def process_levels (cs : List Affine) : Nat → List Affine
  | 0 => [Affine.ident]
  | n + 1 => (process_levels cs n).flatMap (fun a => cs.map (fun c => a.comp c))

/-- Number of nodes visited by the depth-limited traversal at a depth. -/
def nodeCountAt (cs : List Affine) (d : Nat) : Nat :=
  (process_levels cs d).length

/-- `LevelSplit` as returned by `split_levels()` (configuration, not under
`src/`): the mesh depth and the instance depth. -/
structure LevelSplit where
  mesh : Nat
  «instance» : Nat
deriving DecidableEq, Repr

/-- Modelled from the spec: `wgpu_render::SceneState` is not under `src/`;
the viewport state consists of the 2D cursor position and the viewport
extent, the only external inputs. -/
structure SceneState where
  cursor : Point
  extent : Point
deriving DecidableEq

/-- `mesh.rs` `Vertex`: position and texture coordinate. -/
structure Vertex where
  position : Point
  texture_coordinate : Point
deriving DecidableEq, Repr

/-- `mesh.rs` `Instance`: first two rows of the packed homogeneous
transform, each padded to four components. -/
structure Instance where
  row0 : ℚ × ℚ × ℚ × ℚ
  row1 : ℚ × ℚ × ℚ × ℚ
deriving DecidableEq, Repr

/-- The instance-packing step of both `build_mesh` functions: take the
column-major homogeneous slice `s` of the composed transform and keep
`row0 = (s0, s3, s6, 0)`, `row1 = (s1, s4, s7, 0)`. -/
def packInstance (m : Affine) : Instance :=
  let s := m.hslice
  ⟨(s[0]!, s[3]!, s[6]!, 0), (s[1]!, s[4]!, s[7]!, 0)⟩

/-- `mesh.rs::build_mesh`.  `split_levels()` is external configuration and
is passed explicitly as `split`. -/
def build_mesh (src : Source) (split : LevelSplit) (scene : SceneState) :
    List Vertex × List Instance :=
  let root := get_state src (scene.cursor.1 + 1, scene.cursor.2 + 1) (2, 2)
  let bounds := root.bounds
  let root_mat := letter_box ⟨-1, -1, 1, 1⟩ bounds
  let corners := bounds.corners
  let tri_verts := [corners[0]!, corners[1]!, corners[2]!,
                    corners[0]!, corners[2]!, corners[3]!]
  let uv_corners := (Rect.mk 0 0 1 1).corners
  let uv_tri_verts := [uv_corners[0]!, uv_corners[1]!, uv_corners[2]!,
                       uv_corners[0]!, uv_corners[2]!, uv_corners[3]!]
  let positions := (process_levels root.children split.mesh).flatMap
    (fun st => tri_verts.map (fun t => st.apply t))
  let uv_verts := (process_levels root.children split.mesh).flatMap
    (fun _ => uv_tri_verts)
  let verts := (positions.zip uv_verts).map (fun vu => Vertex.mk vu.1 vu.2)
  let instances := (process_levels root.children split.«instance»).map
    (fun st => packInstance (root_mat.comp st))
  (verts, instances)

/-- `mesh_pipeline.rs::build_mesh`, restricted to the buffer contents it
computes (buffer allocation and upload are backend concerns).  `aux` is
the cursor point; `BASE_LEVELS` and `INSTANCE_LEVELS` are constants from
the crate root (not under `src/`) and are passed explicitly.  The vertex
list holds bare positions (`Vec<TexCoord>` used as 2-float positions, no
texture coordinates) and the instance data is a flat float list, eight
floats per instance. -/
def build_mesh_rendy (src : Source) (baseLevels instanceLevels : Nat)
    (aux : Point) : List Point × List ℚ :=
  let root := get_state src (aux.1 + 1, aux.2 + 1) (2, 2)
  let bounds := root.bounds
  let root_mat := letter_box ⟨-1, -1, 1, 1⟩ bounds
  let corners := bounds.corners
  let tri_verts := [corners[0]!, corners[1]!, corners[2]!,
                    corners[0]!, corners[2]!, corners[3]!]
  let verts := (process_levels root.children baseLevels).flatMap
    (fun st => tri_verts.map (fun t => st.apply t))
  let instances := (process_levels root.children instanceLevels).flatMap
    (fun st =>
      let s := (root_mat.comp st).hslice
      [s[0]!, s[3]!, s[6]!, 0, s[1]!, s[4]!, s[7]!, 0])
  (verts, instances)

/-- `mesh.rs::build_quad`: the fixed full-screen quad. -/
def build_quad : List Vertex :=
  let corners := (Rect.mk (-1) (-1) 1 1).corners
  let uv_corners := (Rect.mk 0 0 1 1).corners
  ([0, 1, 2, 0, 2, 3] : List Nat).map
    (fun index => Vertex.mk corners[index]! uv_corners[index]!)

/-- The six triangle-template points of a rectangle: its four corners in
the fixed winding, assembled into the two triangles `(0,1,2)` and
`(0,2,3)`. -/
def tri_template (b : Rect) : List Point :=
  [b.corners[0]!, b.corners[1]!, b.corners[2]!,
   b.corners[0]!, b.corners[2]!, b.corners[3]!]

/-- The six fixed texture coordinates: corners of the unit rectangle
`[0,1]²` under the same winding. -/
def uv_template : List Point :=
  tri_template (Rect.mk 0 0 1 1)

/-- Reconstruction of a 3×3 affine transform from a packed instance
`(row0, row1, [0,0,1])`, following the spec's words. -/
def reconstructAffine (i : Instance) : Affine :=
  ⟨i.row0.1, i.row0.2.1, i.row0.2.2.1, i.row1.1, i.row1.2.1, i.row1.2.2.1⟩

/-- A concrete two-child source used to instantiate witnesses: the two
halves of `[-1,1]²` along the diagonal, with bounds `[-1,1]²`. -/
def demoSource : Source := fun _ _ =>
  { children := [⟨1/2, 0, -1/2, 0, 1/2, -1/2⟩, ⟨1/2, 0, 1/2, 0, 1/2, 1/2⟩],
    bounds := ⟨-1, -1, 1, 1⟩ }

/-- A concrete scene state for witnesses. -/
def demoScene : SceneState := ⟨(0, 0), (800, 600)⟩

/-- A second scene with the same cursor but a different extent. -/
def demoSceneOtherExtent : SceneState := ⟨(0, 0), (100, 100)⟩

/-- The vertex buffer of `mesh.rs::build_mesh` as the flat float sequence
uploaded to the GPU: four floats per vertex. -/
def vertexFloats (vs : List Vertex) : List ℚ :=
  vs.flatMap (fun v =>
    [v.position.1, v.position.2, v.texture_coordinate.1, v.texture_coordinate.2])

/-- The instance buffer of `mesh.rs::build_mesh` as the flat float
sequence uploaded to the GPU: eight floats per instance. -/
def instanceFloats (l : List Instance) : List ℚ :=
  l.flatMap (fun i =>
    [i.row0.1, i.row0.2.1, i.row0.2.2.1, i.row0.2.2.2,
     i.row1.1, i.row1.2.1, i.row1.2.2.1, i.row1.2.2.2])

theorem length_flatMap_const {α β : Type} (l : List α) (f : α → List β) (k : ℕ)
    (h : ∀ a, (f a).length = k) : (l.flatMap f).length = k * l.length := by
  induction l with
  | nil => simp
  | cons a t ih =>
      simp only [List.flatMap_cons, List.length_append, h, ih, List.length_cons]
      ring

theorem zip_flatMap {α β γ : Type} (l : List α) (f : α → List β) (g : α → List γ)
    (h : ∀ a, (f a).length = (g a).length) :
    (l.flatMap f).zip (l.flatMap g) = l.flatMap (fun a => (f a).zip (g a)) := by
  induction l with
  | nil => simp
  | cons a t ih => simp only [List.flatMap_cons, List.zip_append (h a), ih]

theorem build_mesh_fst (src : Source) (split : LevelSplit) (scene : SceneState) :
    (build_mesh src split scene).1 =
      (process_levels
          (src (scene.cursor.1 + 1, scene.cursor.2 + 1) (2, 2)).children split.mesh).flatMap
        (fun st =>
          (((tri_template (src (scene.cursor.1 + 1, scene.cursor.2 + 1) (2, 2)).bounds).map
              (fun t => st.apply t)).zip uv_template).map
            (fun pu => Vertex.mk pu.1 pu.2)) := by
  simp only [build_mesh, get_state]
  rw [zip_flatMap _ _ _ (by intro a; simp)]
  rw [List.map_flatMap]
  rfl

theorem build_mesh_snd (src : Source) (split : LevelSplit) (scene : SceneState) :
    (build_mesh src split scene).2 =
      (process_levels
          (src (scene.cursor.1 + 1, scene.cursor.2 + 1) (2, 2)).children split.«instance»).map
        (fun st =>
          packInstance
            ((letter_box ⟨-1, -1, 1, 1⟩
                (src (scene.cursor.1 + 1, scene.cursor.2 + 1) (2, 2)).bounds).comp st)) := rfl

/-- C1: for every affine transform, the packed instance built by the
instance assembler from the column-major homogeneous slice `s[0..9]`
equals `row0 = (s0, s3, s6, 0)`, `row1 = (s1, s4, s7, 0)`, and
reconstructing an affine transform from `(row0, row1, [0,0,1])`
reproduces the original transform's action on every 2D point. -/
theorem packing_roundtrip (a : Affine) (p : Point) :
    packInstance a =
      ⟨(a.hslice[0]!, a.hslice[3]!, a.hslice[6]!, 0),
       (a.hslice[1]!, a.hslice[4]!, a.hslice[7]!, 0)⟩ ∧
    (reconstructAffine (packInstance a)).apply p = a.apply p := by
  refine ⟨rfl, ?_⟩
  cases a
  rfl

/-- C2: for any split, structure and scene, the vertex list of
`build_mesh` has length exactly `6 ×` the number of nodes visited at
depth `mesh`, and the instance list has length exactly the number of
nodes visited at depth `instance`. -/
theorem buffer_lengths (src : Source) (split : LevelSplit) (scene : SceneState)
    (h : split.mesh ≤ split.«instance») :
    (build_mesh src split scene).1.length =
      6 * nodeCountAt
        (src (scene.cursor.1 + 1, scene.cursor.2 + 1) (2, 2)).children split.mesh ∧
    (build_mesh src split scene).2.length =
      nodeCountAt
        (src (scene.cursor.1 + 1, scene.cursor.2 + 1) (2, 2)).children
        split.«instance» := by
  constructor
  · rw [build_mesh_fst, length_flatMap_const _ _ 6 (by intro a; simp [tri_template, uv_template])]
    rfl
  · rw [build_mesh_snd, List.length_map]
    rfl

theorem buffer_lengths_witness :
    (LevelSplit.mk 1 2).mesh ≤ (LevelSplit.mk 1 2).«instance» ∧
    ((build_mesh demoSource ⟨1, 2⟩ demoScene).1.length =
      6 * nodeCountAt
        (demoSource (demoScene.cursor.1 + 1, demoScene.cursor.2 + 1) (2, 2)).children
        (LevelSplit.mk 1 2).mesh ∧
     (build_mesh demoSource ⟨1, 2⟩ demoScene).2.length =
      nodeCountAt
        (demoSource (demoScene.cursor.1 + 1, demoScene.cursor.2 + 1) (2, 2)).children
        (LevelSplit.mk 1 2).«instance») :=
  ⟨by decide, buffer_lengths demoSource ⟨1, 2⟩ demoScene (by decide)⟩

/-- C8: `build_mesh` is deterministic — two generation calls with
identical inputs (same structure source, same split depths, same scene
state) produce identical vertex and instance buffers. -/
theorem build_mesh_deterministic (src₁ src₂ : Source) (split₁ split₂ : LevelSplit)
    (scene₁ scene₂ : SceneState)
    (hsrc : src₁ = src₂) (hsplit : split₁ = split₂) (hscene : scene₁ = scene₂) :
    build_mesh src₁ split₁ scene₁ = build_mesh src₂ split₂ scene₂ := by
  rw [hsrc, hsplit, hscene]

theorem build_mesh_deterministic_witness :
    demoSource = demoSource ∧ (LevelSplit.mk 1 2) = (LevelSplit.mk 1 2) ∧
    demoScene = demoScene ∧
    build_mesh demoSource ⟨1, 2⟩ demoScene = build_mesh demoSource ⟨1, 2⟩ demoScene :=
  ⟨rfl, rfl, rfl,
   build_mesh_deterministic demoSource demoSource ⟨1, 2⟩ ⟨1, 2⟩ demoScene demoScene
     rfl rfl rfl⟩

/-- C9: `build_quad` takes no input and always returns exactly six
vertices: positions are the corners of the fixed rectangle `[-1,1]²`
in index order `(0,1,2),(0,2,3)` and texture coordinates are the
corners of `[0,1]²` under the same order; a constant independent of any
structure or viewport state. -/
theorem build_quad_constant :
    build_quad =
      [⟨(-1, -1), (0, 0)⟩, ⟨(1, -1), (1, 0)⟩, ⟨(1, 1), (1, 1)⟩,
       ⟨(-1, -1), (0, 0)⟩, ⟨(1, 1), (1, 1)⟩, ⟨(-1, 1), (0, 1)⟩] ∧
    build_quad.length = 6 := by
  constructor <;> rfl

theorem Affine.ident_apply (p : Point) : Affine.ident.apply p = p := by
  simp [Affine.ident, Affine.apply]

theorem chunk_positions (st : Affine) (b : Rect) :
    ((((tri_template b).map (fun t => st.apply t)).zip uv_template).map
        (fun pu => Vertex.mk pu.1 pu.2)).map Vertex.position =
      (tri_template b).map (fun t => st.apply t) := by
  rw [List.map_map]
  have hcomp : (Vertex.position ∘ fun pu : Point × Point => Vertex.mk pu.1 pu.2) =
      Prod.fst := rfl
  rw [hcomp, List.map_fst_zip]
  simp [tri_template, uv_template]

/-- C3: for every node visited at depth `mesh`, `build_mesh` appends
exactly six vertices: positions are the node's accumulated transform
applied to the six fixed triangle-template points built from the root
bounding rectangle's corners in winding `(0,1,2),(0,2,3)`, paired with
the same six fixed UVs from the unit square under the same winding,
identically for every node. -/
theorem mesh_assembler_per_node (src : Source) (split : LevelSplit)
    (scene : SceneState) :
    (build_mesh src split scene).1 =
      (process_levels
          (src (scene.cursor.1 + 1, scene.cursor.2 + 1) (2, 2)).children
          split.mesh).flatMap
        (fun st =>
          (((tri_template (src (scene.cursor.1 + 1, scene.cursor.2 + 1) (2, 2)).bounds).map
              (fun t => st.apply t)).zip uv_template).map
            (fun pu => Vertex.mk pu.1 pu.2)) ∧
    (∀ b : Rect, tri_template b =
      [(b.minx, b.miny), (b.maxx, b.miny), (b.maxx, b.maxy),
       (b.minx, b.miny), (b.maxx, b.maxy), (b.minx, b.maxy)]) ∧
    uv_template = [(0, 0), (1, 0), (1, 1), (0, 0), (1, 1), (0, 1)] ∧
    (∀ st : Affine, ∀ b : Rect,
      ((((tri_template b).map (fun t => st.apply t)).zip uv_template).map
          (fun pu => Vertex.mk pu.1 pu.2)).length = 6) := by
  refine ⟨build_mesh_fst src split scene, fun b => rfl, rfl, fun st b => ?_⟩
  simp [tri_template, uv_template]

/-- C4: the letterbox transform is applied only on the instance path —
every packed instance encodes `letter_box ∘ node_transform`, while each
baked vertex position is the node's accumulated transform applied to the
template point, with no letterbox factor. -/
theorem letterbox_instance_path_only (src : Source) (split : LevelSplit)
    (scene : SceneState) :
    (build_mesh src split scene).2 =
      (process_levels
          (src (scene.cursor.1 + 1, scene.cursor.2 + 1) (2, 2)).children
          split.«instance»).map
        (fun st =>
          packInstance
            ((letter_box ⟨-1, -1, 1, 1⟩
                (src (scene.cursor.1 + 1, scene.cursor.2 + 1) (2, 2)).bounds).comp st)) ∧
    (build_mesh src split scene).1.map Vertex.position =
      (process_levels
          (src (scene.cursor.1 + 1, scene.cursor.2 + 1) (2, 2)).children
          split.mesh).flatMap
        (fun st =>
          (tri_template (src (scene.cursor.1 + 1, scene.cursor.2 + 1) (2, 2)).bounds).map
            (fun t => st.apply t)) := by
  refine ⟨build_mesh_snd src split scene, ?_⟩
  rw [build_mesh_fst, List.map_flatMap]
  simp only [chunk_positions]

/-- C5: with mesh depth 0, `build_mesh` produces exactly six vertices
whose positions are the six triangle-template points of the root bounding
rectangle under the fixed winding, and this vertex output does not depend
on the instance depth. -/
theorem depth_zero_mesh (src : Source) (scene : SceneState) (i₁ i₂ : Nat) :
    (build_mesh src ⟨0, i₁⟩ scene).1 =
      ((tri_template (src (scene.cursor.1 + 1, scene.cursor.2 + 1) (2, 2)).bounds).zip
          uv_template).map (fun pu => Vertex.mk pu.1 pu.2) ∧
    (build_mesh src ⟨0, i₁⟩ scene).1.length = 6 ∧
    (build_mesh src ⟨0, i₁⟩ scene).1.map Vertex.position =
      tri_template (src (scene.cursor.1 + 1, scene.cursor.2 + 1) (2, 2)).bounds ∧
    (build_mesh src ⟨0, i₁⟩ scene).1 = (build_mesh src ⟨0, i₂⟩ scene).1 := by
  have key : ∀ i : Nat, (build_mesh src ⟨0, i⟩ scene).1 =
      ((tri_template (src (scene.cursor.1 + 1, scene.cursor.2 + 1) (2, 2)).bounds).zip
          uv_template).map (fun pu => Vertex.mk pu.1 pu.2) := by
    intro i
    rw [build_mesh_fst]
    simp [process_levels, Affine.ident_apply]
  refine ⟨key i₁, ?_, ?_, (key i₁).trans (key i₂).symm⟩
  · rw [key i₁]
    simp [tri_template, uv_template]
  · rw [key i₁, List.map_map]
    have hcomp : (Vertex.position ∘ fun pu : Point × Point => Vertex.mk pu.1 pu.2) =
        Prod.fst := rfl
    rw [hcomp, List.map_fst_zip]
    simp [tri_template, uv_template]

theorem build_mesh_rendy_fst (src : Source) (b i : Nat) (aux : Point) :
    (build_mesh_rendy src b i aux).1 =
      (process_levels (src (aux.1 + 1, aux.2 + 1) (2, 2)).children b).flatMap
        (fun st =>
          (tri_template (src (aux.1 + 1, aux.2 + 1) (2, 2)).bounds).map
            (fun t => st.apply t)) := rfl

/-- C6 counterexample: at a concrete state, the flat float contents of
the two paths' vertex buffers differ — the `mesh.rs` path interleaves a
texture coordinate with every position while the rendy path uploads bare
positions, so the buffers are not byte-identical. -/
theorem paths_vertex_data_differ :
    ¬ vertexFloats (build_mesh demoSource ⟨0, 1⟩ demoScene).1 =
        (build_mesh_rendy demoSource 0 1 demoScene.cursor).1.flatMap
          (fun p => [p.1, p.2]) :=
  fun hEq => absurd (congrArg List.length hEq) (by decide)

/-- C6 (amended): the two generation paths agree on everything except the
texture coordinates the rendy path omits: for the same input state and
equal split depths they produce the same vertex positions and the same
flat packed instance data. -/
theorem paths_equivalent (src : Source) (split : LevelSplit) (scene : SceneState) :
    (build_mesh src split scene).1.map Vertex.position =
      (build_mesh_rendy src split.mesh split.«instance» scene.cursor).1 ∧
    instanceFloats (build_mesh src split scene).2 =
      (build_mesh_rendy src split.mesh split.«instance» scene.cursor).2 := by
  constructor
  · rw [build_mesh_fst, List.map_flatMap, build_mesh_rendy_fst]
    simp only [chunk_positions]
  · rw [build_mesh_snd]
    simp only [instanceFloats, List.flatMap_map]
    rfl

/-- C7 counterexample: at the malformed split `mesh = 1, instance = 0`
(`instance < mesh`), `build_mesh` reports nothing and silently produces
ordinary buffers (12 vertices and 1 instance for the two-child demo
structure) instead of failing fast. -/
theorem malformed_split_produces_buffers :
    (build_mesh demoSource ⟨1, 0⟩ demoScene).1.length = 12 ∧
    (build_mesh demoSource ⟨1, 0⟩ demoScene).2.length = 1 := by
  decide

/-- C7 (amended): `build_mesh` performs no validation of the split
depths — for every split with `instance < mesh` (the malformed case;
negative depths are unrepresentable since depths are natural numbers) it
still produces buffers with the usual counts, silently violating the
tiling invariant rather than failing fast. -/
theorem no_split_validation (src : Source) (split : LevelSplit) (scene : SceneState)
    (h : split.«instance» < split.mesh) :
    (build_mesh src split scene).1.length =
      6 * nodeCountAt
        (src (scene.cursor.1 + 1, scene.cursor.2 + 1) (2, 2)).children split.mesh ∧
    (build_mesh src split scene).2.length =
      nodeCountAt
        (src (scene.cursor.1 + 1, scene.cursor.2 + 1) (2, 2)).children
        split.«instance» := by
  constructor
  · rw [build_mesh_fst,
      length_flatMap_const _ _ 6 (by intro a; simp [tri_template, uv_template])]
    rfl
  · rw [build_mesh_snd, List.length_map]
    rfl

theorem no_split_validation_witness :
    (LevelSplit.mk 1 0).«instance» < (LevelSplit.mk 1 0).mesh ∧
    ((build_mesh demoSource ⟨1, 0⟩ demoScene).1.length =
      6 * nodeCountAt
        (demoSource (demoScene.cursor.1 + 1, demoScene.cursor.2 + 1) (2, 2)).children
        (LevelSplit.mk 1 0).mesh ∧
     (build_mesh demoSource ⟨1, 0⟩ demoScene).2.length =
      nodeCountAt
        (demoSource (demoScene.cursor.1 + 1, demoScene.cursor.2 + 1) (2, 2)).children
        (LevelSplit.mk 1 0).«instance») :=
  ⟨by decide, no_split_validation demoSource ⟨1, 0⟩ demoScene (by decide)⟩

/-- C10: both generation paths anchor the recursive structure at origin
`(cursor.x + 1, cursor.y + 1)` with the fixed scale `(2, 2)`: the buffers
depend on the viewport state only through the cursor (any extent change
is invisible), and on the source only through its value at that anchored
query, so the structure's extent never depends on viewport size. -/
theorem anchoring_cursor_only (src₁ src₂ : Source) (split : LevelSplit)
    (b i : Nat) (s₁ s₂ : SceneState)
    (hc : s₁.cursor = s₂.cursor)
    (hsrc : src₁ (s₂.cursor.1 + 1, s₂.cursor.2 + 1) (2, 2) =
            src₂ (s₂.cursor.1 + 1, s₂.cursor.2 + 1) (2, 2)) :
    build_mesh src₁ split s₁ = build_mesh src₂ split s₂ ∧
    build_mesh_rendy src₁ b i s₁.cursor = build_mesh_rendy src₂ b i s₂.cursor := by
  constructor
  · simp only [build_mesh, get_state, hc, hsrc]
  · simp only [build_mesh_rendy, get_state, hc, hsrc]

theorem anchoring_cursor_only_witness :
    demoScene.cursor = demoSceneOtherExtent.cursor ∧
    demoSource (demoSceneOtherExtent.cursor.1 + 1, demoSceneOtherExtent.cursor.2 + 1) (2, 2) =
      demoSource (demoSceneOtherExtent.cursor.1 + 1, demoSceneOtherExtent.cursor.2 + 1) (2, 2) ∧
    (build_mesh demoSource ⟨1, 2⟩ demoScene =
       build_mesh demoSource ⟨1, 2⟩ demoSceneOtherExtent ∧
     build_mesh_rendy demoSource 1 2 demoScene.cursor =
       build_mesh_rendy demoSource 1 2 demoSceneOtherExtent.cursor) :=
  ⟨rfl, rfl,
   anchoring_cursor_only demoSource demoSource ⟨1, 2⟩ 1 2 demoScene
     demoSceneOtherExtent rfl rfl⟩
